import Mathlib

/-!
Shallow embedding of the forsit inventory-and-sales backend
(`app/routes/Sales.py`, `app/routes/Inventory.py`,
`app/utils/error_handling.py`, `app/models/*`).

Mongo documents become Lean structures; the two collections become lists;
each HTTP handler becomes a function from its inputs (and an explicit
storage-behaviour record, modelling which driver calls raise) to a result.
Python floats are modelled as rationals; the monetary formulas in the code
are exact products, and the concrete instances checked below are exactly
representable in IEEE doubles as well.

A raised `HTTPException` is an `HErr.http status detail` error result; an
exception that escapes a handler with no `try/except` around it is
`HErr.uncaught`.
-/

/-- One document of the `inventory` collection: fields `Products` and
`Quantity` (see `app/models/Inventory.py`). -/
structure InventoryItem where
  products : String
  quantity : Int
deriving Repr, DecidableEq

/-- One document of the `sales` collection (see `Sale` in
`app/models/Sales.py`); floats modelled as rationals. -/
structure Sale where
  invoice_id : String
  branch : String
  city : String
  customer_type : String
  gender : String
  product_line : String
  unit_price : ℚ
  quantity : Int
  tax_5_percent : ℚ
  total : ℚ
  date : String
  time : String
  payment : String
  cogs : ℚ
  gross_margin_percentage : ℚ
  gross_income : ℚ
  rating : ℚ
deriving Repr, DecidableEq

/-- The two collections of the database. -/
structure DB where
  inventory : List InventoryItem
  sales : List Sale
deriving Repr, DecidableEq

/-- Outcome of a handler seen from outside: a raised `HTTPException`
(status code and detail string), or an exception that escapes the handler
uncaught because no `try/except` surrounds the raising call. -/
inductive HErr where
| http : Nat → String → HErr
| uncaught : HErr
deriving Repr, DecidableEq

/-- `ErrorHandling.handle_internal_server_error` in
`app/utils/error_handling.py`: a 500 with a generic detail. -/
def handle_internal_server_error : HErr :=
  HErr.http 500 "Internal Server Error"

/-- `ErrorHandling.handle_not_found_error` in
`app/utils/error_handling.py`: a 404 with detail `"{resource} not found"`. -/
def handle_not_found_error (resource_name : String) : HErr :=
  HErr.http 404 (resource_name ++ " not found")

/-- Which storage-driver calls of `add_new_sale` raise, and whether the
final `insert_one` result reports an `inserted_id`. -/
structure StorageBehavior where
  findRaises : Bool
  updateRaises : Bool
  insertRaises : Bool
  insertedIdPresent : Bool
deriving Repr, DecidableEq

/-- The behaviour in which every storage call succeeds. -/
def allOk : StorageBehavior :=
  { findRaises := false, updateRaises := false, insertRaises := false,
    insertedIdPresent := true }

/-- `inventory_collection.find_one({"Products": pl})`: first document whose
`Products` field equals `pl`. -/
def findProduct (inv : List InventoryItem) (pl : String) : Option InventoryItem :=
  inv.find? (fun i => i.products == pl)

/-- `inventory_collection.update_one({"Products": pl}, {"$set": {"Quantity": q}})`:
set the `Quantity` of the first document whose `Products` equals `pl`. -/
def updateOneQuantity (inv : List InventoryItem) (pl : String) (q : Int) :
    List InventoryItem :=
  match inv with
  | [] => []
  | i :: rest =>
    if i.products == pl then { i with quantity := q } :: rest
    else i :: updateOneQuantity rest pl q

/-- `add_new_sale` in `app/routes/Sales.py` (POST /sales/new_sale).
Stamps `date`/`time` with the server timestamps `now_date`/`now_time`,
looks the product up by `Products == product_line` (404 "Product not
found" if absent), checks `Quantity < sale.quantity` (404 "Insufficient
quantity in inventory"), computes `total` and `tax_5_percent`, updates the
inventory quantity, inserts the sale, and returns it; there is no
`try/except` in this handler, so a raising storage call escapes as
`HErr.uncaught`, and an insert reporting no `inserted_id` yields a 500
"Failed to add sale" after the inventory was already decremented. -/
def add_new_sale (now_date now_time : String) (sale0 : Sale) (db : DB)
    (beh : StorageBehavior) : Except HErr Sale × DB :=
  let sale1 := { sale0 with date := now_date, time := now_time }
  if beh.findRaises then (Except.error HErr.uncaught, db)
  else
    match findProduct db.inventory sale1.product_line with
    | none => (Except.error (handle_not_found_error "Product"), db)
    | some item =>
      if item.quantity < sale1.quantity then
        (Except.error (HErr.http 404 "Insufficient quantity in inventory"), db)
      else
        let sale2 := { sale1 with
          total := sale1.unit_price * (sale1.quantity : ℚ) * (95 / 100),
          tax_5_percent := sale1.unit_price * (sale1.quantity : ℚ) * (5 / 100) }
        let updated_quantity := item.quantity - sale2.quantity
        if beh.updateRaises then (Except.error HErr.uncaught, db)
        else
          let db2 : DB := { db with
            inventory := updateOneQuantity db.inventory sale2.product_line updated_quantity }
          if beh.insertRaises then (Except.error HErr.uncaught, db2)
          else if beh.insertedIdPresent then
            (Except.ok sale2, { db2 with sales := db2.sales ++ [sale2] })
          else
            (Except.error (HErr.http 500 "Failed to add sale"), db2)

/-- The sale document `add_new_sale` persists on success: input sale with
`date`/`time` stamped and `total`/`tax_5_percent` recomputed. -/
def computedSale (now_date now_time : String) (sale0 : Sale) : Sale :=
  { sale0 with
    date := now_date, time := now_time,
    total := sale0.unit_price * (sale0.quantity : ℚ) * (95 / 100),
    tax_5_percent := sale0.unit_price * (sale0.quantity : ℚ) * (5 / 100) }

/-- A sale request with the given product line, unit price and quantity
(remaining descriptive fields fixed), used for concrete evaluations. -/
def mkSale (pl : String) (up : ℚ) (q : Int) : Sale :=
  { invoice_id := "I-001", branch := "A", city := "Yangon",
    customer_type := "Member", gender := "F", product_line := pl,
    unit_price := up, quantity := q, tax_5_percent := 0, total := 0,
    date := "01/01/2020", time := "00:00:00", payment := "Cash", cogs := 0,
    gross_margin_percentage := 0, gross_income := 0, rating := 0 }

/-- `get_sales` in `app/routes/Sales.py` (GET /sales): returns up to 100
sales; its `try/except` converts any storage exception into the generic
500. The argument is the outcome of `sales_collection.find().to_list`. -/
def get_sales (dbResult : Except Unit (List Sale)) : Except HErr (List Sale) :=
  match dbResult with
  | Except.ok l => Except.ok (l.take 100)
  | Except.error _ => Except.error handle_internal_server_error

/-- An exception inside a handler body before any `except` clause runs:
either a raised `HTTPException` or a storage/driver exception. -/
inductive PyExc where
| http : Nat → String → PyExc
| storage : PyExc
deriving Repr, DecidableEq

/-- The `try` block of `get_item` in `app/routes/Inventory.py`: look the
item up; if present return it, else raise the 404 built by
`handle_not_found_error("Item")`. The argument is the outcome of
`inventory_collection.find_one({"_id": item_id})`. -/
def get_item_try (findResult : Except Unit (Option InventoryItem)) :
    Except PyExc InventoryItem :=
  match findResult with
  | Except.error _ => Except.error PyExc.storage
  | Except.ok (some item) => Except.ok item
  | Except.ok none => Except.error (PyExc.http 404 "Item not found")

/-- `get_item` in `app/routes/Inventory.py` (GET /inventory/\x7bitem_id\x7d):
the `except Exception` clause catches every exception raised in the `try`
block — including the 404 `HTTPException` raised for an absent item — and
replaces it with the generic 500. -/
def get_item (findResult : Except Unit (Option InventoryItem)) :
    Except HErr InventoryItem :=
  match get_item_try findResult with
  | Except.ok item => Except.ok item
  | Except.error _ => Except.error handle_internal_server_error

/-- The `try` block of `update_inventory` in `app/routes/Inventory.py`:
construct the ObjectId (raises on an invalid id string), run the update,
and raise the 404 when `modified_count` is not positive. The arguments are
whether `ObjectId(item_id)` succeeds and the outcome of `update_one`
(`modified_count` on success). -/
def update_inventory_try (objectIdOk : Bool)
    (updateResult : Except Unit Nat) : Except PyExc String :=
  if objectIdOk = false then Except.error PyExc.storage
  else
    match updateResult with
    | Except.error _ => Except.error PyExc.storage
    | Except.ok modifiedCount =>
      if modifiedCount > 0 then Except.ok "Item updated successfully"
      else Except.error (PyExc.http 404 "Item not found")

/-- `update_inventory` in `app/routes/Inventory.py`
(PUT /inventory/\x7bitem_id\x7d): as in `get_item`, the `except Exception`
clause also catches the 404 raised inside the `try` block and converts it
to the generic 500. -/
def update_inventory (objectIdOk : Bool) (updateResult : Except Unit Nat) :
    Except HErr String :=
  match update_inventory_try objectIdOk updateResult with
  | Except.ok m => Except.ok m
  | Except.error _ => Except.error handle_internal_server_error

/-- `InventoryErrorHandler.handle_quantity_warning` in
`app/utils/error_handling.py`: for `quantity < 10` it RAISES an
`HTTPException` with status 200 and a warning detail; `some (code, msg)`
models the raise, `none` the plain return. -/
def handle_quantity_warning (quantity : Int) (product : String) :
    Option (Nat × String) :=
  if quantity < 10 then
    some (200, "Warning: Product (" ++ product ++ ") quantity is low. Current quantity: "
      ++ toString quantity)
  else none

/-- Outcome of GET /inventory/low_quantity_warning: either the normal
`\x7blow_quantity_items: [...]\x7d` body (name/quantity pairs), or a raised
`HTTPException` escaping the handler. -/
inductive LowQtyResponse where
| ok : List (String × Int) → LowQtyResponse
| httpRaise : Nat → String → LowQtyResponse
deriving Repr, DecidableEq

/-- The `for` loop of `check_low_quantity_warning`: append each item's
name and quantity to `warning_messages`, then call
`handle_quantity_warning`, whose raise aborts the loop and the handler. -/
def lowQuantityLoop : List InventoryItem → List (String × Int) → LowQtyResponse
  | [], acc => LowQtyResponse.ok acc
  | i :: rest, acc =>
    let acc2 := acc ++ [(i.products, i.quantity)]
    match handle_quantity_warning i.quantity i.products with
    | some (code, msg) => LowQtyResponse.httpRaise code msg
    | none => lowQuantityLoop rest acc2

/-- `check_low_quantity_warning` in `app/routes/Inventory.py`
(GET /inventory/low_quantity_warning): fetch up to 100 items with
`Quantity < 10`, then run the warning loop; there is no `try/except`, so
the `HTTPException` raised by `handle_quantity_warning` escapes. -/
def check_low_quantity_warning (db : DB) : LowQtyResponse :=
  lowQuantityLoop ((db.inventory.filter (fun i => i.quantity < 10)).take 100) []

theorem findProduct_updateOneQuantity (inv : List InventoryItem)
    (pl : String) (q : Int) :
    findProduct (updateOneQuantity inv pl q) pl
      = (findProduct inv pl).map (fun i => { i with quantity := q }) := by
  induction inv with
  | nil => rfl
  | cons i rest ih =>
    by_cases h : i.products = pl
    · simp [updateOneQuantity, findProduct, List.find?, h]
    · have hb : (i.products == pl) = false := beq_eq_false_iff_ne.mpr h
      simp [updateOneQuantity, findProduct, List.find?, hb] at ih ⊢
      exact ih

theorem add_new_sale_success (nd nt : String) (sale0 : Sale) (db : DB)
    (item : InventoryItem)
    (hfind : findProduct db.inventory sale0.product_line = some item)
    (hq : ¬ item.quantity < sale0.quantity) :
    add_new_sale nd nt sale0 db allOk
      = (Except.ok (computedSale nd nt sale0),
         { inventory := updateOneQuantity db.inventory sale0.product_line
             (item.quantity - sale0.quantity),
           sales := db.sales ++ [computedSale nd nt sale0] }) := by
  simp [add_new_sale, allOk, hfind, hq, computedSale]

/-- C1: for every POST /sales/new_sale request naming an existing
inventory item with sufficient stock, the persisted sale's `total` is
`unit_price * quantity * 0.95` and its `tax_5_percent` is
`unit_price * quantity * 0.05`, overwriting any client-supplied values,
the sale is appended to the sales collection, and the matched inventory
item's quantity decreases by exactly the sale quantity. -/
theorem new_sale_totals (nd nt : String) (sale0 : Sale) (db : DB)
    (item : InventoryItem)
    (hfind : findProduct db.inventory sale0.product_line = some item)
    (hq : sale0.quantity ≤ item.quantity) :
    ∃ s : Sale,
      add_new_sale nd nt sale0 db allOk
        = (Except.ok s,
           { inventory := updateOneQuantity db.inventory sale0.product_line
               (item.quantity - sale0.quantity),
             sales := db.sales ++ [s] })
      ∧ s.total = sale0.unit_price * (sale0.quantity : ℚ) * (95 / 100)
      ∧ s.tax_5_percent = sale0.unit_price * (sale0.quantity : ℚ) * (5 / 100)
      ∧ findProduct (add_new_sale nd nt sale0 db allOk).2.inventory sale0.product_line
          = some { item with quantity := item.quantity - sale0.quantity } := by
  have hq' : ¬ item.quantity < sale0.quantity := not_lt.mpr hq
  refine ⟨computedSale nd nt sale0, add_new_sale_success nd nt sale0 db item hfind hq',
    rfl, rfl, ?_⟩
  rw [add_new_sale_success nd nt sale0 db item hfind hq']
  simp [findProduct_updateOneQuantity, hfind]

/-- Witness for C1 at the spec's concrete instance: `unit_price = 10`,
`quantity = 3`, stock 5; the persisted total is 28.5 = 57/2, the tax is
1.5 = 3/2, and the item's quantity drops from 5 to 2. -/
theorem new_sale_totals_witness :
    ∃ s : Sale,
      add_new_sale "03/05/2019" "10:00:00" (mkSale "Beer" 10 3)
          { inventory := [{ products := "Beer", quantity := 5 }], sales := [] } allOk
        = (Except.ok s,
           { inventory := updateOneQuantity [{ products := "Beer", quantity := 5 }] "Beer" 2,
             sales := [s] })
      ∧ s.total = 57 / 2 ∧ s.tax_5_percent = 3 / 2 := by
  obtain ⟨s, h1, h2, h3, _⟩ :=
    new_sale_totals "03/05/2019" "10:00:00" (mkSale "Beer" 10 3)
      { inventory := [{ products := "Beer", quantity := 5 }], sales := [] }
      { products := "Beer", quantity := 5 } (by rfl) (by decide)
  refine ⟨s, ?_, ?_, ?_⟩
  · simpa [mkSale] using h1
  · rw [h2]; norm_num [mkSale]
  · rw [h3]; norm_num [mkSale]

/-- C2 counterexample: the insufficient-stock failure does NOT carry the
required-vs-available quantity data. Two runs with different required
quantities (5 vs 7) and different available stocks (1 vs 2) produce
identical error responses, and that response is the fixed detail
"Insufficient quantity in inventory" with no quantities in it — so the
response cannot encode required-vs-available data. -/
theorem insufficient_stock_detail_carries_no_data :
    (add_new_sale "d" "t" (mkSale "Beer" 10 5)
        { inventory := [{ products := "Beer", quantity := 1 }], sales := [] } allOk).1
      = (add_new_sale "d" "t" (mkSale "Wine" 20 7)
          { inventory := [{ products := "Wine", quantity := 2 }], sales := [] } allOk).1
    ∧ (add_new_sale "d" "t" (mkSale "Beer" 10 5)
        { inventory := [{ products := "Beer", quantity := 1 }], sales := [] } allOk).1
      = Except.error (HErr.http 404 "Insufficient quantity in inventory") :=
  ⟨rfl, rfl⟩

/-- C2 (amended): when the matched inventory item's quantity is strictly
below the requested sale quantity, `add_new_sale` fails with the 404
`HTTPException` carrying the fixed detail "Insufficient quantity in
inventory" (no required/available quantities in the payload), and the
database is returned unchanged: no sale persisted, no inventory
mutated. -/
theorem insufficient_stock_404_no_mutation (nd nt : String) (sale0 : Sale)
    (db : DB) (beh : StorageBehavior) (item : InventoryItem)
    (hbeh : beh.findRaises = false)
    (hfind : findProduct db.inventory sale0.product_line = some item)
    (hq : item.quantity < sale0.quantity) :
    add_new_sale nd nt sale0 db beh
      = (Except.error (HErr.http 404 "Insufficient quantity in inventory"), db) := by
  simp [add_new_sale, hbeh, hfind, hq]

/-- Witness for C2's amended theorem: stock 1, requested 5. -/
theorem insufficient_stock_404_no_mutation_witness :
    add_new_sale "03/05/2019" "10:00:00" (mkSale "Beer" 10 5)
        { inventory := [{ products := "Beer", quantity := 1 }], sales := [] } allOk
      = (Except.error (HErr.http 404 "Insufficient quantity in inventory"),
         { inventory := [{ products := "Beer", quantity := 1 }], sales := [] }) :=
  insufficient_stock_404_no_mutation "03/05/2019" "10:00:00" (mkSale "Beer" 10 5)
    { inventory := [{ products := "Beer", quantity := 1 }], sales := [] } allOk
    { products := "Beer", quantity := 1 } (by rfl) (by rfl) (by decide)

/-- C3: when no inventory item's `Products` equals the request's
`product_line`, `add_new_sale` fails with the 404 `HTTPException`
"Product not found" and the database is returned unchanged: no sale
persisted, no inventory mutated. -/
theorem product_not_found_404_no_mutation (nd nt : String) (sale0 : Sale)
    (db : DB) (beh : StorageBehavior)
    (hbeh : beh.findRaises = false)
    (hfind : findProduct db.inventory sale0.product_line = none) :
    add_new_sale nd nt sale0 db beh
      = (Except.error (HErr.http 404 "Product not found"), db) := by
  have hmsg : handle_not_found_error "Product" = HErr.http 404 "Product not found" := rfl
  simp [add_new_sale, hbeh, hfind, hmsg]

/-- Witness for C3: a request for "Cola" against an inventory holding only
"Beer". -/
theorem product_not_found_404_no_mutation_witness :
    add_new_sale "03/05/2019" "10:00:00" (mkSale "Cola" 10 1)
        { inventory := [{ products := "Beer", quantity := 5 }], sales := [] } allOk
      = (Except.error (HErr.http 404 "Product not found"),
         { inventory := [{ products := "Beer", quantity := 5 }], sales := [] }) :=
  product_not_found_404_no_mutation "03/05/2019" "10:00:00" (mkSale "Cola" 10 1)
    { inventory := [{ products := "Beer", quantity := 5 }], sales := [] } allOk
    (by rfl) (by rfl)

/-- C4: when the lookup and the inventory decrement succeed but the sale
insert fails — either the driver call raises (`insertRaises`) or the
result reports no `inserted_id` — the request fails (no success response),
the sales collection is unchanged (no sale persisted), and the matched
inventory item is left decremented: no compensating re-increment is
performed and no retry is attempted. -/
theorem insert_failure_leaves_decremented_inventory (nd nt : String)
    (sale0 : Sale) (db : DB) (beh : StorageBehavior) (item : InventoryItem)
    (hf : beh.findRaises = false) (hu : beh.updateRaises = false)
    (hfind : findProduct db.inventory sale0.product_line = some item)
    (hq : ¬ item.quantity < sale0.quantity)
    (hins : beh.insertRaises = true
      ∨ (beh.insertRaises = false ∧ beh.insertedIdPresent = false)) :
    (∀ s, (add_new_sale nd nt sale0 db beh).1 ≠ Except.ok s)
    ∧ (add_new_sale nd nt sale0 db beh).2.sales = db.sales
    ∧ findProduct (add_new_sale nd nt sale0 db beh).2.inventory sale0.product_line
        = some { item with quantity := item.quantity - sale0.quantity } := by
  rcases hins with hr | ⟨hr, hid⟩
  · simp [add_new_sale, hf, hu, hfind, hq, hr, findProduct_updateOneQuantity]
  · simp [add_new_sale, hf, hu, hfind, hq, hr, hid, findProduct_updateOneQuantity]

/-- Witness for C4: insert reports no `inserted_id`; stock 5, quantity 3;
the inventory is left at 2 and the sales list stays empty. -/
theorem insert_failure_leaves_decremented_inventory_witness :
    ((add_new_sale "03/05/2019" "10:00:00" (mkSale "Beer" 10 3)
        { inventory := [{ products := "Beer", quantity := 5 }], sales := [] }
        { findRaises := false, updateRaises := false, insertRaises := false,
          insertedIdPresent := false }).1
      ≠ Except.ok (computedSale "03/05/2019" "10:00:00" (mkSale "Beer" 10 3)))
    ∧ (add_new_sale "03/05/2019" "10:00:00" (mkSale "Beer" 10 3)
        { inventory := [{ products := "Beer", quantity := 5 }], sales := [] }
        { findRaises := false, updateRaises := false, insertRaises := false,
          insertedIdPresent := false }).2.sales = []
    ∧ findProduct (add_new_sale "03/05/2019" "10:00:00" (mkSale "Beer" 10 3)
        { inventory := [{ products := "Beer", quantity := 5 }], sales := [] }
        { findRaises := false, updateRaises := false, insertRaises := false,
          insertedIdPresent := false }).2.inventory "Beer"
      = some { products := "Beer", quantity := 2 } := by
  obtain ⟨h1, h2, h3⟩ :=
    insert_failure_leaves_decremented_inventory "03/05/2019" "10:00:00"
      (mkSale "Beer" 10 3)
      { inventory := [{ products := "Beer", quantity := 5 }], sales := [] }
      { findRaises := false, updateRaises := false, insertRaises := false,
        insertedIdPresent := false }
      { products := "Beer", quantity := 5 }
      (by rfl) (by rfl) (by rfl) (by decide) (Or.inr ⟨rfl, rfl⟩)
  exact ⟨h1 (computedSale "03/05/2019" "10:00:00" (mkSale "Beer" 10 3)), h2,
    by simpa [mkSale] using h3⟩

/-- C5 (code evaluated at the failing input): with any low-quantity item
present, GET /inventory/low_quantity_warning does NOT resolve to the
normal response. `handle_quantity_warning` raises its status-200
`HTTPException` on the first low item, aborting the loop: for an
inventory holding Beer (5) and Wine (3), the handler's outcome is the
raised warning about Beer alone, not an `ok` body listing both items. -/
theorem low_quantity_warning_aborts_on_first_low_item :
    check_low_quantity_warning
        { inventory := [{ products := "Beer", quantity := 5 },
            { products := "Wine", quantity := 3 }], sales := [] }
      = LowQtyResponse.httpRaise 200
          "Warning: Product (Beer) quantity is low. Current quantity: 5" := by
  rfl

/-- C6 (code evaluated at the failing inputs): an absent inventory item
does NOT surface as a 404. In `get_item` and `update_inventory` the 404
`HTTPException` is raised inside the `try` block (third conjunct), so the
`except Exception` clause catches it and converts it to the generic 500
(first two conjuncts). -/
theorem absent_item_surfaces_500_not_404 :
    get_item (Except.ok none) = Except.error (HErr.http 500 "Internal Server Error")
    ∧ update_inventory true (Except.ok 0)
        = Except.error (HErr.http 500 "Internal Server Error")
    ∧ get_item_try (Except.ok none) = Except.error (PyExc.http 404 "Item not found") :=
  ⟨rfl, rfl, rfl⟩

/-- C7 counterexample: `add_new_sale` has no `try/except`, so a storage
exception raised by its `find_one` call is NOT converted to the 500
`InternalError` response — it escapes the handler uncaught (and
`HErr.uncaught` is a different value from the 500 response, second
conjunct). -/
theorem new_sale_storage_exception_escapes :
    add_new_sale "d" "t" (mkSale "Beer" 10 3)
        { inventory := [{ products := "Beer", quantity := 5 }], sales := [] }
        { findRaises := true, updateRaises := false, insertRaises := false,
          insertedIdPresent := true }
      = (Except.error HErr.uncaught,
         { inventory := [{ products := "Beer", quantity := 5 }], sales := [] })
    ∧ decide (HErr.uncaught = handle_internal_server_error) = false :=
  ⟨rfl, rfl⟩

/-- C7 (amended): handlers wrapped in `try/except` (here GET /sales)
convert storage exceptions to the generic 500; POST /sales/new_sale has no
handler-boundary catch, so a storage exception there propagates uncaught,
while its domain-specific not-found and insufficient-stock conditions are
raised explicitly as 404 `HTTPException`s. -/
theorem error_propagation_per_handler (nd nt : String) (sale0 : Sale)
    (db : DB) (beh : StorageBehavior) (item : InventoryItem) :
    get_sales (Except.error ())
        = Except.error (HErr.http 500 "Internal Server Error")
    ∧ (beh.findRaises = true →
        (add_new_sale nd nt sale0 db beh).1 = Except.error HErr.uncaught)
    ∧ (beh.findRaises = false →
        findProduct db.inventory sale0.product_line = none →
        (add_new_sale nd nt sale0 db beh).1
          = Except.error (HErr.http 404 "Product not found"))
    ∧ (beh.findRaises = false →
        findProduct db.inventory sale0.product_line = some item →
        item.quantity < sale0.quantity →
        (add_new_sale nd nt sale0 db beh).1
          = Except.error (HErr.http 404 "Insufficient quantity in inventory")) := by
  have hmsg : handle_not_found_error "Product" = HErr.http 404 "Product not found" := rfl
  refine ⟨rfl, ?_, ?_, ?_⟩
  · intro hr
    simp [add_new_sale, hr]
  · intro hr hfind
    simp [add_new_sale, hr, hfind, hmsg]
  · intro hr hfind hq
    simp [add_new_sale, hr, hfind, hq]

/-- Witness for C7's amended theorem: the 500 conversion at GET /sales, an
uncaught storage exception at POST /sales/new_sale, and its two explicit
404 conditions, all at concrete inputs. -/
theorem error_propagation_per_handler_witness :
    get_sales (Except.error ())
        = Except.error (HErr.http 500 "Internal Server Error")
    ∧ (add_new_sale "d" "t" (mkSale "Beer" 10 3)
        { inventory := [{ products := "Beer", quantity := 5 }], sales := [] }
        { findRaises := true, updateRaises := false, insertRaises := false,
          insertedIdPresent := true }).1 = Except.error HErr.uncaught
    ∧ (add_new_sale "d" "t" (mkSale "Cola" 10 3)
        { inventory := [{ products := "Beer", quantity := 5 }], sales := [] }
        allOk).1 = Except.error (HErr.http 404 "Product not found")
    ∧ (add_new_sale "d" "t" (mkSale "Beer" 10 9)
        { inventory := [{ products := "Beer", quantity := 5 }], sales := [] }
        allOk).1 = Except.error (HErr.http 404 "Insufficient quantity in inventory") := by
  refine ⟨(error_propagation_per_handler "d" "t" (mkSale "Beer" 10 3)
      { inventory := [{ products := "Beer", quantity := 5 }], sales := [] }
      { findRaises := true, updateRaises := false, insertRaises := false,
        insertedIdPresent := true }
      { products := "Beer", quantity := 5 }).1,
    (error_propagation_per_handler "d" "t" (mkSale "Beer" 10 3)
      { inventory := [{ products := "Beer", quantity := 5 }], sales := [] }
      { findRaises := true, updateRaises := false, insertRaises := false,
        insertedIdPresent := true }
      { products := "Beer", quantity := 5 }).2.1 rfl,
    (error_propagation_per_handler "d" "t" (mkSale "Cola" 10 3)
      { inventory := [{ products := "Beer", quantity := 5 }], sales := [] }
      allOk { products := "Beer", quantity := 5 }).2.2.1 rfl rfl,
    (error_propagation_per_handler "d" "t" (mkSale "Beer" 10 9)
      { inventory := [{ products := "Beer", quantity := 5 }], sales := [] }
      allOk { products := "Beer", quantity := 5 }).2.2.2 rfl rfl (by decide)⟩

theorem add_new_sale_ok_sale (nd nt : String) (sale0 : Sale) (db : DB)
    (beh : StorageBehavior) (s : Sale)
    (h : (add_new_sale nd nt sale0 db beh).1 = Except.ok s) :
    s = computedSale nd nt sale0 := by
  by_cases hf : beh.findRaises = true
  · simp [add_new_sale, hf] at h
  · cases hfind : findProduct db.inventory sale0.product_line with
    | none => simp [add_new_sale, hf, hfind] at h
    | some item =>
      by_cases hq : item.quantity < sale0.quantity
      · simp [add_new_sale, hf, hfind, hq] at h
      · by_cases hu : beh.updateRaises = true
        · simp [add_new_sale, hf, hfind, hq, hu] at h
        · by_cases hi : beh.insertRaises = true
          · simp [add_new_sale, hf, hfind, hq, hu, hi] at h
          · by_cases hp : beh.insertedIdPresent = true
            · simp [add_new_sale, hf, hfind, hq, hu, hi, hp, computedSale] at h
              exact h.symm
            · simp [add_new_sale, hf, hfind, hq, hu, hi, hp] at h

/-- C8: `add_new_sale` overwrites `date` and `time` with the server
timestamps before the lookup, so client-supplied `date`/`time` values are
ignored — the whole run (response and final database) is identical for any
client-supplied values — and any successfully returned (hence persisted)
sale carries the server timestamps. -/
theorem client_datetime_ignored (nd nt d t : String) (sale0 : Sale)
    (db : DB) (beh : StorageBehavior) :
    add_new_sale nd nt { sale0 with date := d, time := t } db beh
      = add_new_sale nd nt sale0 db beh
    ∧ ∀ s, (add_new_sale nd nt sale0 db beh).1 = Except.ok s →
        s.date = nd ∧ s.time = nt := by
  refine ⟨rfl, fun s hs => ?_⟩
  have hcomp := add_new_sale_ok_sale nd nt sale0 db beh s hs
  rw [hcomp]
  exact ⟨rfl, rfl⟩

/-- Witness for C8: a request carrying bogus client date/time runs
identically to the plain request, and the returned sale carries the server
stamps. -/
theorem client_datetime_ignored_witness :
    add_new_sale "03/05/2019" "10:00:00"
        { mkSale "Beer" 10 3 with date := "12/31/1999", time := "23:59:59" }
        { inventory := [{ products := "Beer", quantity := 5 }], sales := [] } allOk
      = add_new_sale "03/05/2019" "10:00:00" (mkSale "Beer" 10 3)
        { inventory := [{ products := "Beer", quantity := 5 }], sales := [] } allOk
    ∧ ((computedSale "03/05/2019" "10:00:00" (mkSale "Beer" 10 3)).date = "03/05/2019"
      ∧ (computedSale "03/05/2019" "10:00:00" (mkSale "Beer" 10 3)).time = "10:00:00") := by
  have h := client_datetime_ignored "03/05/2019" "10:00:00" "12/31/1999" "23:59:59"
    (mkSale "Beer" 10 3)
    { inventory := [{ products := "Beer", quantity := 5 }], sales := [] } allOk
  exact ⟨h.1, h.2 (computedSale "03/05/2019" "10:00:00" (mkSale "Beer" 10 3)) (by rfl)⟩

/-- C9: for an existing item with non-negative stock and a zero or
negative requested quantity, the `Quantity < quantity` check passes (a
non-negative stock is never below a non-positive quantity), the workflow
succeeds, and the item's quantity becomes stock minus the requested
quantity — at least the old stock, so a negative request increases
inventory; no step rejects `quantity ≤ 0`. -/
theorem nonpositive_quantity_accepted (nd nt : String) (sale0 : Sale)
    (db : DB) (item : InventoryItem)
    (hfind : findProduct db.inventory sale0.product_line = some item)
    (hstock : 0 ≤ item.quantity) (hq : sale0.quantity ≤ 0) :
    (add_new_sale nd nt sale0 db allOk).1 = Except.ok (computedSale nd nt sale0)
    ∧ findProduct (add_new_sale nd nt sale0 db allOk).2.inventory sale0.product_line
        = some { item with quantity := item.quantity - sale0.quantity }
    ∧ item.quantity ≤ item.quantity - sale0.quantity := by
  have hq' : ¬ item.quantity < sale0.quantity := by omega
  rw [add_new_sale_success nd nt sale0 db item hfind hq']
  refine ⟨rfl, ?_, by omega⟩
  simp [findProduct_updateOneQuantity, hfind]

/-- Witness for C9: stock 5 and requested quantity -2 succeed and leave
the item at quantity 7 — inventory increased. -/
theorem nonpositive_quantity_accepted_witness :
    (add_new_sale "03/05/2019" "10:00:00" (mkSale "Beer" 10 (-2))
        { inventory := [{ products := "Beer", quantity := 5 }], sales := [] } allOk).1
      = Except.ok (computedSale "03/05/2019" "10:00:00" (mkSale "Beer" 10 (-2)))
    ∧ findProduct (add_new_sale "03/05/2019" "10:00:00" (mkSale "Beer" 10 (-2))
        { inventory := [{ products := "Beer", quantity := 5 }], sales := [] } allOk).2.inventory
        "Beer" = some { products := "Beer", quantity := 7 } := by
  obtain ⟨h1, h2, _⟩ := nonpositive_quantity_accepted "03/05/2019" "10:00:00"
    (mkSale "Beer" 10 (-2))
    { inventory := [{ products := "Beer", quantity := 5 }], sales := [] }
    { products := "Beer", quantity := 5 } (by rfl) (by decide) (by decide)
  refine ⟨h1, ?_⟩
  have h7 : (5 : Int) - (-2) = 7 := by decide
  simpa [mkSale, h7] using h2

/-- C10: for a single sequential request with `0 < quantity ≤ stock`, the
strict `<` check passes (quantity exactly equal to stock succeeds), the
workflow succeeds, and the item's resulting quantity is stock minus the
requested quantity, which is non-negative: the sale workflow preserves
non-negativity of the inventory quantity. -/
theorem sale_preserves_nonneg_quantity (nd nt : String) (sale0 : Sale)
    (db : DB) (item : InventoryItem)
    (hfind : findProduct db.inventory sale0.product_line = some item)
    (hpos : 0 < sale0.quantity) (hle : sale0.quantity ≤ item.quantity) :
    (add_new_sale nd nt sale0 db allOk).1 = Except.ok (computedSale nd nt sale0)
    ∧ findProduct (add_new_sale nd nt sale0 db allOk).2.inventory sale0.product_line
        = some { item with quantity := item.quantity - sale0.quantity }
    ∧ 0 ≤ item.quantity - sale0.quantity := by
  have hq' : ¬ item.quantity < sale0.quantity := by omega
  rw [add_new_sale_success nd nt sale0 db item hfind hq']
  refine ⟨rfl, ?_, by omega⟩
  simp [findProduct_updateOneQuantity, hfind]

/-- Witness for C10 at the boundary case quantity = stock = 3: the request
succeeds and leaves the item at quantity 0. -/
theorem sale_preserves_nonneg_quantity_witness :
    (add_new_sale "03/05/2019" "10:00:00" (mkSale "Beer" 10 3)
        { inventory := [{ products := "Beer", quantity := 3 }], sales := [] } allOk).1
      = Except.ok (computedSale "03/05/2019" "10:00:00" (mkSale "Beer" 10 3))
    ∧ findProduct (add_new_sale "03/05/2019" "10:00:00" (mkSale "Beer" 10 3)
        { inventory := [{ products := "Beer", quantity := 3 }], sales := [] } allOk).2.inventory
        "Beer" = some { products := "Beer", quantity := 0 } := by
  obtain ⟨h1, h2, _⟩ := sale_preserves_nonneg_quantity "03/05/2019" "10:00:00"
    (mkSale "Beer" 10 3)
    { inventory := [{ products := "Beer", quantity := 3 }], sales := [] }
    { products := "Beer", quantity := 3 } (by rfl) (by decide) (by decide)
  refine ⟨h1, ?_⟩
  have h0 : (3 : Int) - 3 = 0 := by decide
  simpa [mkSale, h0] using h2
